import Mathlib

/-!
Verification of the `collection_json` Python module (a typed model of the
Collection+JSON hypermedia format) against its natural-language
specification.  The module is shallowly embedded: JSON values become the
inductive type `Json`, Python exceptions become the inductive `PyErr`,
each Python class becomes a Lean structure, and each method becomes an
executable Lean function translated line by line from the source
(`src/collection_json.py`).  Python dictionaries are modelled as ordered
association lists (CPython dicts preserve insertion order), Python `None`
is `Json.null` (exactly what `json.loads` produces for JSON `null`), and
JSON numbers are modelled as integers (no claim involves floats).
-/

namespace CollectionJson

/-- JSON values as produced by `json.loads`: null, booleans, numbers,
strings, arrays and objects (ordered key/value lists). -/
inductive Json where
  | null
  | bool (b : Bool)
  | num (n : Int)
  | str (s : String)
  | arr (elems : List Json)
  | obj (fields : List (String × Json))
deriving Repr

/-- Python exceptions raised by the module: `ValueError`, `TypeError` and
`AttributeError`, each carrying its message string. -/
inductive PyErr where
  | valueError (msg : String)
  | typeError (msg : String)
  | attributeError (msg : String)
deriving Repr, DecidableEq

/-- Dictionary lookup (`d.get(key)` / `d[key]`) on an ordered
association list; the first binding of a key wins (dictionaries built by
`json.loads` never carry duplicate keys). -/
def lookupJ : List (String × Json) → String → Option Json
  | [], _ => none
  | (k, v) :: rest, key => if k = key then some v else lookupJ rest key

/-- Python truthiness (`bool(x)`) of a parsed JSON value: `None`, `False`,
`0`, the empty string, the empty list and the empty dict are falsy. -/
def Json.truthy : Json → Bool
  | .null => false
  | .bool b => b
  | .num n => n != 0
  | .str s => !s.isEmpty
  | .arr l => !l.isEmpty
  | .obj l => !l.isEmpty

/-- Test for `x is None` on a parsed JSON value. -/
def Json.isNull : Json → Bool
  | .null => true
  | _ => false

/-- Test for `isinstance(x, dict)` on a parsed JSON value. -/
def Json.isObj : Json → Bool
  | .obj _ => true
  | _ => false

mutual
/-- Python equality (`==`) on parsed JSON values: `None` equals only
`None`, booleans and integers are cross-comparable (`True == 1`), lists
compare elementwise, dicts compare as unordered key/value maps. -/
def pyEq : Json → Json → Bool
  | .null, .null => true
  | .bool a, .bool b => a == b
  | .bool a, .num m => (if a then (1 : Int) else 0) == m
  | .num n, .bool b => n == (if b then (1 : Int) else 0)
  | .num n, .num m => n == m
  | .str s, .str t => s == t
  | .arr a, .arr b => pyEqL a b
  | .obj a, .obj b => a.length == b.length && pyEqIncl a b
  | _, _ => false
/-- Elementwise Python equality of two lists. -/
def pyEqL : List Json → List Json → Bool
  | [], [] => true
  | x :: xs, y :: ys => pyEq x y && pyEqL xs ys
  | _, _ => false
/-- Containment half of Python dict equality: every binding of the first
dict is present (with a Python-equal value) in the second. -/
def pyEqIncl : List (String × Json) → List (String × Json) → Bool
  | [], _ => true
  | (k, v) :: xs, b =>
      (match lookupJ b k with
       | some w => pyEq v w
       | none => false) && pyEqIncl xs b
end

mutual
/-- Python `repr` of a parsed JSON value (used by the `%r` format of the
error message in `Array._build_items`). -/
def pyRepr : Json → String
  | .null => "None"
  | .bool true => "True"
  | .bool false => "False"
  | .num n => toString n
  | .str s => "\x27" ++ s ++ "\x27"
  | .arr l => "[" ++ pyReprL l ++ "]"
  | .obj l => "\x7b" ++ pyReprO l ++ "\x7d"
/-- Comma-separated reprs of the elements of a Python list. -/
def pyReprL : List Json → String
  | [] => ""
  | [x] => pyRepr x
  | x :: xs => pyRepr x ++ ", " ++ pyReprL xs
/-- Comma-separated reprs of the bindings of a Python dict. -/
def pyReprO : List (String × Json) → String
  | [] => ""
  | [(k, v)] => "\x27" ++ k ++ "\x27: " ++ pyRepr v
  | (k, v) :: xs => "\x27" ++ k ++ "\x27: " ++ pyRepr v ++ ", " ++ pyReprO xs
end

/-- Python `str` of a parsed JSON value (used by the `%s` format of the
error message in `_from_dict_or_value`): like `repr` but a bare string
keeps no quotes. -/
def pyStr : Json → String
  | .str s => s
  | v => pyRepr v

/-- Entity `Data` (class `Data`): a single named field.  Field values are
parsed JSON values; `Json.null` is Python `None` (the default of the
optional constructor parameters `value` and `prompt`). -/
structure Data where
  name : Json
  value : Json := .null
  prompt : Json := .null
deriving Repr

/-- Entity `Link` (class `Link`): `href` and `rel` are required
constructor parameters, `name`, `render` and `prompt` default to `None`. -/
structure Link where
  href : Json
  rel : Json
  name : Json := .null
  render : Json := .null
  prompt : Json := .null
deriving Repr

/-- Entity `Query` (class `Query`): `href` and `rel` are required,
`name` and `prompt` default to `None`; `data` is coerced by its setter to
an `Array(Data, "data", ...)`, modelled as the element list. -/
structure Query where
  href : Json
  rel : Json
  name : Json := .null
  prompt : Json := .null
  data : List Data := []
deriving Repr

/-- Entity `Item` (class `Item`): `href` defaults to `None`; `data` and
`links` are coerced by their setters to `Array(Data, "data", ...)` and
`Array(Link, "links", ...)`, modelled as the element lists (the arrays
of a given field always carry the same `item_class` and
`collection_name`, so those two bookkeeping attributes are left
implicit). -/
structure Item where
  href : Json := .null
  data : List Data := []
  links : List Link := []
deriving Repr

/-- Entity `Error` (class `Error`): three optional fields defaulting to
`None`. -/
structure Error where
  code : Json := .null
  message : Json := .null
  title : Json := .null
deriving Repr

/-- Entity `Template` (class `Template`): its only field `data` is
coerced by its setter to an `Array(Data, "data", ...)`, modelled as the
element list. -/
structure Template where
  data : List Data := []
deriving Repr

/-- Entity `Collection` (class `Collection`): the document root.  The
`links`, `items` and `queries` setters always produce arrays (never
`None`); `template` and `error` are optional entities (`none` is Python
`None`). -/
structure Collection where
  version : Json := .str "1.0"
  href : Json
  links : List Link := []
  items : List Item := []
  queries : List Query := []
  template : Option Template := none
  error : Option Error := none
deriving Repr

/-- Result of Python `==` between the value returned by
`getattr(item, attr, None)` and a search key.  The attribute view of an
element is `some j` when the lookup yields the plain value `j`
(`Json.null` both for an attribute holding `None` and for a missing
attribute, where `getattr` returns the `None` default), and `none` when
it yields a non-JSON object (a `Data` entity or a list of entities, as
produced by `Item` delegation); such an object is never Python-equal to
a JSON search key. -/
def attrEq : Option Json → Json → Bool
  | some j, k => pyEq j k
  | none, _ => false

/-- Method `Array._matches`, per element: the three mutually exclusive
`if`/`elif`/`elif` branches of the generator body (search by name only,
by rel only, or by both).  `gName` and `gRel` model
`getattr(item, "name", None)` and `getattr(item, "rel", None)` for the
array element type. -/
def Array.matchesB (gName gRel : α → Option Json) (n r : Json) (it : α) : Bool :=
  (!n.isNull && attrEq (gName it) n && r.isNull) ||
  (!r.isNull && attrEq (gRel it) r && n.isNull) ||
  (attrEq (gName it) n && attrEq (gRel it) r)

/-- Method `Array.find(name, rel)`: the list of the elements yielded by
`_matches`.  An argument equal to `Json.null` models an argument left at
its `None` default. -/
def Array.find (gName gRel : α → Option Json) (n r : Json) (xs : List α) : List α :=
  xs.filter (Array.matchesB gName gRel n r)

/-- Message of the `ValueError` raised by `Array.get`. -/
def notFoundMsg : String := "No matching item found."

/-- Method `Array.get(name, rel)`: `next(self._matches(...))`, i.e. the
first matching element, or `ValueError("No matching item found.")` when
the generator is exhausted at once. -/
def Array.get (gName gRel : α → Option Json) (n r : Json) (xs : List α) :
    Except PyErr α :=
  match Array.find gName gRel n r xs with
  | [] => .error (.valueError notFoundMsg)
  | y :: _ => .ok y

/-- Result of an attribute-style lookup on an array: either the single
matching element or the full list of matches. -/
inductive AttrLookup (α : Type) where
  | one (a : α)
  | many (l : List α)
deriving Repr

/-- Method `Array.__getattr__(name)` (reached only for a name that is not
a genuine attribute of the array object): `find(name=name)`, then a bare
`AttributeError` for no match, the single element for one match, and the
whole result list otherwise. -/
def Array.getattr (gName gRel : α → Option Json) (xs : List α) (x : String) :
    Except PyErr (AttrLookup α) :=
  match Array.find gName gRel (.str x) .null xs with
  | [] => .error (.attributeError "")
  | [r] => .ok (.one r)
  | rs => .ok (.many rs)

/-- Attribute view `getattr(d, "name", None)` of a `Data` element. -/
def Data.attrName (d : Data) : Option Json := some d.name

/-- Attribute view `getattr(d, "rel", None)` of a `Data` element: `Data`
has no `rel` attribute, so `getattr` returns its `None` default. -/
def Data.attrRel (_ : Data) : Option Json := some .null

/-- Attribute view `getattr(l, "name", None)` of a `Link` element. -/
def Link.attrName (l : Link) : Option Json := some l.name

/-- Attribute view `getattr(l, "rel", None)` of a `Link` element. -/
def Link.attrRel (l : Link) : Option Json := some l.rel

/-- Attribute view `getattr(q, "name", None)` of a `Query` element. -/
def Query.attrName (q : Query) : Option Json := some q.name

/-- Attribute view `getattr(q, "rel", None)` of a `Query` element. -/
def Query.attrRel (q : Query) : Option Json := some q.rel

/-- Attribute view `getattr(i, attr, None)` of an `Item` element for an
attribute `Item` itself does not define: `Item.__getattr__` forwards to
`getattr(self.data, attr)`, i.e. `Array.__getattr__`, whose
`AttributeError` is absorbed by the `getattr` default `None`; a hit
yields a `Data` entity or a list of them, which is not a JSON value. -/
def Item.attrVia (i : Item) (attr : String) : Option Json :=
  match Array.find Data.attrName Data.attrRel (.str attr) .null i.data with
  | [] => some .null
  | _ => none

/-- Attribute view `getattr(i, "name", None)` of an `Item` element. -/
def Item.attrName (i : Item) : Option Json := Item.attrVia i "name"

/-- Attribute view `getattr(i, "rel", None)` of an `Item` element. -/
def Item.attrRel (i : Item) : Option Json := Item.attrVia i "rel"

/-- Method `Item.__getattr__(name)` (reached only for a name that is not
a genuine attribute of `Item`): `getattr(self.data, name)`, which for an
unknown name reaches `Array.__getattr__` on the data array. -/
def Item.getattr (i : Item) (x : String) : Except PyErr (AttrLookup Data) :=
  Array.getattr Data.attrName Data.attrRel i.data x

/-- Method `Template.__getattr__(name)` (reached only for a name that is
not a genuine attribute of `Template`): `getattr(self.data, name)`. -/
def Template.getattr (t : Template) (x : String) : Except PyErr (AttrLookup Data) :=
  Array.getattr Data.attrName Data.attrRel t.data x

/-- Python `dict.update(other)`: bindings of keys already present are
overwritten in place, new keys are appended in order. -/
def dictUpdate (a b : List (String × Json)) : List (String × Json) :=
  a.map (fun kv =>
    match lookupJ b kv.1 with
    | some v => (kv.1, v)
    | none => kv) ++
  b.filter (fun kv => (lookupJ a kv.1).isNone)

/-- Method `Array.to_dict`: the dict
`\x7bcollection_name: [item.to_dict() for item in self]\x7d`. -/
def Array.to_dict (collectionName : String) (f : α → List (String × Json))
    (xs : List α) : List (String × Json) :=
  [(collectionName, .arr (xs.map (fun x => .obj (f x))))]

/-- Method `Data.to_dict`: `name` always; `value` and `prompt` exactly
when they are not `None` (`is not None` tests in the source). -/
def Data.to_dict (d : Data) : List (String × Json) :=
  [("name", d.name)] ++
  (if d.value.isNull then [] else [("value", d.value)]) ++
  (if d.prompt.isNull then [] else [("prompt", d.prompt)])

/-- Method `Link.to_dict`: `href` and `rel` always; `name`, `render` and
`prompt` exactly when not `None`. -/
def Link.to_dict (l : Link) : List (String × Json) :=
  [("href", l.href), ("rel", l.rel)] ++
  (if l.name.isNull then [] else [("name", l.name)]) ++
  (if l.render.isNull then [] else [("render", l.render)]) ++
  (if l.prompt.isNull then [] else [("prompt", l.prompt)])

/-- Method `Query.to_dict`: `href` and `rel` always; `name` and `prompt`
when not `None`; the serialized data array is merged in when
`len(self.data)` is nonzero. -/
def Query.to_dict (q : Query) : List (String × Json) :=
  let output := [("href", q.href), ("rel", q.rel)] ++
    (if q.name.isNull then [] else [("name", q.name)]) ++
    (if q.prompt.isNull then [] else [("prompt", q.prompt)])
  if q.data.isEmpty then output
  else dictUpdate output (Array.to_dict "data" Data.to_dict q.data)

/-- Method `Item.to_dict`: `href` when truthy (`if self.href:`); the
serialized `data` and `links` arrays merged in when nonempty. -/
def Item.to_dict (i : Item) : List (String × Json) :=
  let output := if i.href.truthy then [("href", i.href)] else []
  let output := if i.data.isEmpty then output
    else dictUpdate output (Array.to_dict "data" Data.to_dict i.data)
  let output := if i.links.isEmpty then output
    else dictUpdate output (Array.to_dict "links" Link.to_dict i.links)
  output

/-- Method `Error.to_dict`: always the single key `error`; inside it,
`code`, `message` and `title` exactly when truthy (`if self.code:` tests
in the source, so a present-but-falsy field is dropped). -/
def Error.to_dict (e : Error) : List (String × Json) :=
  [("error", .obj (
    (if e.code.truthy then [("code", e.code)] else []) ++
    (if e.message.truthy then [("message", e.message)] else []) ++
    (if e.title.truthy then [("title", e.title)] else [])))]

/-- Method `Template.to_dict`: always
`\x7b"template": self.data.to_dict()\x7d`, even for an empty data
array. -/
def Template.to_dict (t : Template) : List (String × Json) :=
  [("template", .obj (Array.to_dict "data" Data.to_dict t.data))]

/-- Method `Collection.to_dict`: the `version`/`href` envelope, then the
serialized `links`, `items`, `queries`, `template` and `error` merged in
that order, each under an `if self.X:` guard.  For the three arrays the
guard is list truthiness (nonempty); a `Template` or `Error` instance
defines neither `__bool__` nor `__len__`, so the guard on those two is
simply presence (`None` is falsy, every instance is truthy, even an
empty one). -/
def Collection.to_dict (c : Collection) : List (String × Json) :=
  let inner := [("version", c.version), ("href", c.href)]
  let inner := if c.links.isEmpty then inner
    else dictUpdate inner (Array.to_dict "links" Link.to_dict c.links)
  let inner := if c.items.isEmpty then inner
    else dictUpdate inner (Array.to_dict "items" Item.to_dict c.items)
  let inner := if c.queries.isEmpty then inner
    else dictUpdate inner (Array.to_dict "queries" Query.to_dict c.queries)
  let inner := match c.template with
    | none => inner
    | some t => dictUpdate inner (Template.to_dict t)
  let inner := match c.error with
    | none => inner
    | some e => dictUpdate inner (Error.to_dict e)
  [("collection", .obj inner)]

/-- Message of the `ValueError` raised by `Collection.from_json`. -/
def fmtMsgC : String := "Not a valid Collection+JSON document."

/-- Message of the `ValueError` raised by `Template.from_json`. -/
def fmtMsgT : String := "Not valid Collection+JSON template data."

/-- Message of the `TypeError` the Python runtime raises when a call
binds an unexpected keyword argument (modelled after the CPython text). -/
def unexpectedKwMsg (cls k : String) : String :=
  cls ++ ".__init__() got an unexpected keyword argument \x27" ++ k ++ "\x27"

/-- Message of the `TypeError` the Python runtime raises when a call
leaves a required positional parameter unbound (modelled after the
CPython text). -/
def missingArgMsg (cls p : String) : String :=
  cls ++ ".__init__() missing required argument: \x27" ++ p ++ "\x27"

/-- Message of the `TypeError` the Python runtime raises for
`f(**x)` with a non-mapping `x` (modelled after the CPython text). -/
def mappingMsg : String := "argument after ** must be a mapping"

/-- Message of the `TypeError` the Python runtime raises when a `for`
loop iterates a non-iterable value (modelled after the CPython text). -/
def notIterableMsg : String := "object is not iterable"

/-- Message of the `AttributeError` the Python runtime raises for
`x.get(...)` on a value with no `get` attribute, as happens in
`from_json` when the parsed document is not a dict (modelled after the
CPython text). -/
def noGetAttrMsg : String := "object has no attribute \x27get\x27"

/-- First keyword argument of a call that is not a parameter of the
constructor, if any (the Python runtime rejects it before the
constructor body runs). -/
def badKw (allowed : List String) (kvs : List (String × Json)) : Option String :=
  (kvs.find? (fun kv => !allowed.contains kv.1)).map (fun kv => kv.1)

/-- Value of an optional keyword argument: an absent key yields the
parameter default `None`, exactly like an explicitly passed `null`. -/
def kwGetD (kvs : List (String × Json)) (k : String) : Json :=
  (lookupJ kvs k).getD .null

/-- Helper `_from_dict_or_value(value, cls)` as invoked on parsed JSON
values: `None` passes through, a dict is expanded into keyword
construction of the class, anything else raises the `TypeError` of the
source (values coming from `json.loads` are never already instances of
the class, so the `isinstance` branch of the source is unreachable
here). -/
def fromDictOrValue (build : List (String × Json) → Except PyErr α)
    (cls : String) : Json → Except PyErr (Option α)
  | .null => .ok none
  | .obj kvs => (build kvs).map some
  | v => .error (.typeError ("Invalid value \x27" ++ pyStr v ++
      "\x27, expected dict or \x27" ++ cls ++ "\x27"))

/-- Python iteration over a parsed JSON value: a list yields its
elements, a string its one-character substrings, a dict its keys;
`None`, booleans and numbers are not iterable. -/
def jsonIter : Json → Except PyErr (List Json)
  | .arr xs => .ok xs
  | .str s => .ok (s.toList.map (fun c => .str (String.singleton c)))
  | .obj kvs => .ok (kvs.map (fun kv => .str kv.1))
  | _ => .error (.typeError notIterableMsg)

/-- One loop step of `Array._build_items`: an element that is already an
instance of `item_class` is kept (`Sum.inl`), a dict is expanded into
keyword construction, and any other element raises
`ValueError("Invalid value for %s: %r" % (item_class.__name__, item))`. -/
def buildOne (build : List (String × Json) → Except PyErr α) (cls : String) :
    α ⊕ Json → Except PyErr α
  | .inl a => .ok a
  | .inr (.obj kvs) => build kvs
  | .inr j => .error (.valueError ("Invalid value for " ++ cls ++ ": " ++ pyRepr j))

/-- Method `Array._build_items(items)`: the elements converted in order,
stopping at the first failing element. -/
def buildItems (build : List (String × Json) → Except PyErr α) (cls : String) :
    List (α ⊕ Json) → Except PyErr (List α)
  | [] => .ok []
  | x :: xs => do
      let a ← buildOne build cls x
      let rest ← buildItems build cls xs
      .ok (a :: rest)

/-- Helper `_from_iterable_to_array(cls, name, iterable)` as invoked on
parsed JSON values: `None` becomes the empty array, any other value is
iterated and its elements are converted by `_build_items` (elements
coming from `json.loads` are never already typed instances). -/
def fromIterableToArray (build : List (String × Json) → Except PyErr α)
    (cls : String) : Json → Except PyErr (List α)
  | .null => .ok []
  | v => do
      let xs ← jsonIter v
      buildItems build cls (xs.map Sum.inr)

/-- Keyword construction `Data(**kvs)`: `name` is required, `value` and
`prompt` default to `None`. -/
def dataFromKwargs (kvs : List (String × Json)) : Except PyErr Data :=
  match badKw ["name", "value", "prompt"] kvs with
  | some k => .error (.typeError (unexpectedKwMsg "Data" k))
  | none =>
    match lookupJ kvs "name" with
    | none => .error (.typeError (missingArgMsg "Data" "name"))
    | some name => .ok ⟨name, kwGetD kvs "value", kwGetD kvs "prompt"⟩

/-- Keyword construction `Link(**kvs)`: `href` and `rel` are required,
the rest defaults to `None`. -/
def linkFromKwargs (kvs : List (String × Json)) : Except PyErr Link :=
  match badKw ["href", "rel", "name", "render", "prompt"] kvs with
  | some k => .error (.typeError (unexpectedKwMsg "Link" k))
  | none =>
    match lookupJ kvs "href", lookupJ kvs "rel" with
    | some href, some rel =>
        .ok ⟨href, rel, kwGetD kvs "name", kwGetD kvs "render", kwGetD kvs "prompt"⟩
    | none, _ => .error (.typeError (missingArgMsg "Link" "href"))
    | _, none => .error (.typeError (missingArgMsg "Link" "rel"))

/-- Keyword construction `Query(**kvs)`: `href` and `rel` are required;
the `data` setter coerces its value through `_from_iterable_to_array`. -/
def queryFromKwargs (kvs : List (String × Json)) : Except PyErr Query :=
  match badKw ["href", "rel", "name", "prompt", "data"] kvs with
  | some k => .error (.typeError (unexpectedKwMsg "Query" k))
  | none =>
    match lookupJ kvs "href", lookupJ kvs "rel" with
    | some href, some rel => do
        let data ← fromIterableToArray dataFromKwargs "Data" (kwGetD kvs "data")
        .ok ⟨href, rel, kwGetD kvs "name", kwGetD kvs "prompt", data⟩
    | none, _ => .error (.typeError (missingArgMsg "Query" "href"))
    | _, none => .error (.typeError (missingArgMsg "Query" "rel"))

/-- Keyword construction `Item(**kvs)`: all parameters optional; the
`data` and `links` setters coerce through `_from_iterable_to_array` (in
the assignment order of `Item.__init__`: `href`, `data`, `links`). -/
def itemFromKwargs (kvs : List (String × Json)) : Except PyErr Item :=
  match badKw ["href", "data", "links"] kvs with
  | some k => .error (.typeError (unexpectedKwMsg "Item" k))
  | none => do
      let data ← fromIterableToArray dataFromKwargs "Data" (kwGetD kvs "data")
      let links ← fromIterableToArray linkFromKwargs "Link" (kwGetD kvs "links")
      .ok ⟨kwGetD kvs "href", data, links⟩

/-- Keyword construction `Error(**kvs)`: all parameters optional. -/
def errorFromKwargs (kvs : List (String × Json)) : Except PyErr Error :=
  match badKw ["code", "message", "title"] kvs with
  | some k => .error (.typeError (unexpectedKwMsg "Error" k))
  | none => .ok ⟨kwGetD kvs "code", kwGetD kvs "message", kwGetD kvs "title"⟩

/-- Keyword construction `Template(**kvs)`: the `data` setter coerces
through `_from_iterable_to_array`. -/
def templateFromKwargs (kvs : List (String × Json)) : Except PyErr Template :=
  match badKw ["data"] kvs with
  | some k => .error (.typeError (unexpectedKwMsg "Template" k))
  | none => do
      let data ← fromIterableToArray dataFromKwargs "Data" (kwGetD kvs "data")
      .ok ⟨data⟩

/-- Keyword construction `Collection(**kvs)`: `href` is required,
`version` defaults to the string `"1.0"`; the body of
`Collection.__init__` assigns (and so validates) `error`, `template`,
`items`, `links`, `queries` in that order. -/
def collectionFromKwargs (kvs : List (String × Json)) : Except PyErr Collection :=
  match badKw ["href", "links", "items", "queries", "template", "error", "version"] kvs with
  | some k => .error (.typeError (unexpectedKwMsg "Collection" k))
  | none =>
    match lookupJ kvs "href" with
    | none => .error (.typeError (missingArgMsg "Collection" "href"))
    | some href => do
        let version := (lookupJ kvs "version").getD (.str "1.0")
        let error ← fromDictOrValue errorFromKwargs "Error" (kwGetD kvs "error")
        let template ← fromDictOrValue templateFromKwargs "Template" (kwGetD kvs "template")
        let items ← fromIterableToArray itemFromKwargs "Item" (kwGetD kvs "items")
        let links ← fromIterableToArray linkFromKwargs "Link" (kwGetD kvs "links")
        let queries ← fromIterableToArray queryFromKwargs "Query" (kwGetD kvs "queries")
        .ok ⟨version, href, links, items, queries, template, error⟩

/-- Method `Collection.from_json(data)`.  The input models the result of
`json.loads`: `none` when the text is not valid JSON (the `ValueError`
of `loads` is caught and replaced by the fixed message), `some j`
otherwise.  On a parsed non-dict, `data.get("collection")` raises an
uncaught `AttributeError`; a falsy `collection` value raises the fixed
`ValueError`; a truthy non-dict value makes `Collection(**kwargs)` raise
the runtime `TypeError`; otherwise the document is built by keyword
construction. -/
def Collection.from_json : Option Json → Except PyErr Collection
  | none => .error (.valueError fmtMsgC)
  | some (.obj kvs) =>
      let kw := kwGetD kvs "collection"
      if kw.truthy then
        match kw with
        | .obj kvs2 => collectionFromKwargs kvs2
        | _ => .error (.typeError mappingMsg)
      else .error (.valueError fmtMsgC)
  | some _ => .error (.attributeError noGetAttrMsg)

/-- Method `Template.from_json(data)`: mirrors `Collection.from_json`
with the top-level key `template` and its own fixed message. -/
def Template.from_json : Option Json → Except PyErr Template
  | none => .error (.valueError fmtMsgT)
  | some (.obj kvs) =>
      let kw := kwGetD kvs "template"
      if kw.truthy then
        match kw with
        | .obj kvs2 => templateFromKwargs kvs2
        | _ => .error (.typeError mappingMsg)
      else .error (.valueError fmtMsgT)
  | some _ => .error (.attributeError noGetAttrMsg)

/-- Elementwise lifting of an equality test to lists (Python list
equality: equal lengths and pairwise equal elements). -/
def pyEqListBy (f : α → α → Bool) : List α → List α → Bool
  | [], [] => true
  | x :: xs, y :: ys => f x y && pyEqListBy f xs ys
  | _, _ => false

/-- Lifting of an equality test to optional values (`None` equals only
`None`; an entity is never equal to `None`). -/
def pyEqOptBy (f : α → α → Bool) : Option α → Option α → Bool
  | none, none => true
  | some a, some b => f a b
  | _, _ => false

/-- Structural equality `ComparableObject.__eq__` for `Data`: same class
and equal `__dict__`, i.e. all fields Python-equal. -/
def Data.pyEqv (a b : Data) : Bool :=
  pyEq a.name b.name && pyEq a.value b.value && pyEq a.prompt b.prompt

/-- Structural equality `ComparableObject.__eq__` for `Link`. -/
def Link.pyEqv (a b : Link) : Bool :=
  pyEq a.href b.href && pyEq a.rel b.rel && pyEq a.name b.name &&
  pyEq a.render b.render && pyEq a.prompt b.prompt

/-- Structural equality `ComparableObject.__eq__` for `Query` (its data
array compares by `Array.__eq__`: same `item_class` and
`collection_name` — fixed for this field — and equal element lists). -/
def Query.pyEqv (a b : Query) : Bool :=
  pyEq a.href b.href && pyEq a.rel b.rel && pyEq a.name b.name &&
  pyEq a.prompt b.prompt && pyEqListBy Data.pyEqv a.data b.data

/-- Structural equality `ComparableObject.__eq__` for `Item`. -/
def Item.pyEqv (a b : Item) : Bool :=
  pyEq a.href b.href && pyEqListBy Data.pyEqv a.data b.data &&
  pyEqListBy Link.pyEqv a.links b.links

/-- Structural equality `ComparableObject.__eq__` for `Error`. -/
def Error.pyEqv (a b : Error) : Bool :=
  pyEq a.code b.code && pyEq a.message b.message && pyEq a.title b.title

/-- Structural equality `ComparableObject.__eq__` for `Template`. -/
def Template.pyEqv (a b : Template) : Bool :=
  pyEqListBy Data.pyEqv a.data b.data

/-- Structural equality `ComparableObject.__eq__` for `Collection`:
same class and all fields equal (the three array fields always agree on
`item_class` and `collection_name`, so only their element lists
matter). -/
def Collection.pyEqv (a b : Collection) : Bool :=
  pyEq a.version b.version && pyEq a.href b.href &&
  pyEqListBy Link.pyEqv a.links b.links &&
  pyEqListBy Item.pyEqv a.items b.items &&
  pyEqListBy Query.pyEqv a.queries b.queries &&
  pyEqOptBy Template.pyEqv a.template b.template &&
  pyEqOptBy Error.pyEqv a.error b.error

/-- Test whether an exception is (Python class) `TypeError`. -/
def PyErr.isTypeErr : PyErr → Bool
  | .typeError _ => true
  | _ => false

/-- A value passes the `is None` test exactly when it is `Json.null`. -/
theorem Json.isNull_true_iff (j : Json) : j.isNull = true ↔ j = .null := by
  cases j <;> simp [Json.isNull]

/-- Bind of a successful `Except` computation. -/
theorem except_bind_ok (a : α) (f : α → Except ε β) :
    ((.ok a : Except ε α) >>= f) = f a := rfl

/-- Bind of a failed `Except` computation. -/
theorem except_bind_err (e : ε) (f : α → Except ε β) :
    ((.error e : Except ε α) >>= f) = .error e := rfl

/-- Claim C3, counterexample: on the array holding the single link
`Link(href="/", rel=None)`, whose `name` and `rel` attributes are both
`None`, `find()` with neither argument returns that link (the third
branch of `_matches` compares `item_name == None and item_rel == None`),
not the empty list. -/
theorem c3_counterexample :
    Array.find Link.attrName Link.attrRel .null .null
      [(⟨.str "/", .null, .null, .null, .null⟩ : Link)] =
      [(⟨.str "/", .null, .null, .null, .null⟩ : Link)] ∧
    (Array.find Link.attrName Link.attrRel .null .null
      [(⟨.str "/", .null, .null, .null, .null⟩ : Link)]).length = 1 :=
  ⟨rfl, rfl⟩

/-- Claim C3, amended: `find` with neither `name` nor `rel` supplied
returns exactly the elements whose `name` and `rel` attributes are both
`None`; in particular it is empty whenever every element has a non-None
`name` or `rel`, but not for every array. -/
theorem c3_find_degenerate (gName gRel : α → Option Json) (xs : List α) :
    Array.find gName gRel .null .null xs =
      xs.filter (fun it => attrEq (gName it) .null && attrEq (gRel it) .null) := by
  unfold Array.find
  apply List.filter_congr
  intro it _
  simp [Array.matchesB, Json.isNull]

/-- Claim C5: with only `name` given an element matches exactly when its
`name` attribute equals the argument (its `rel` is ignored); with only
`rel` given, exactly when its `rel` equals the argument; with both
given, exactly when both equal; and on the array
`[Link(name="a",rel="x"), Link(name="a",rel="y"), Link(name="b",rel="x")]`,
`find(name="a")` returns the first two links, `find(rel="x")` the first
and third, and `find(name="a", rel="y")` only the second. -/
theorem c5_matching_rules (gName gRel : α → Option Json) (n r : Json) (it : α) :
    (n ≠ .null → r = .null →
      Array.matchesB gName gRel n r it = attrEq (gName it) n) ∧
    (n = .null → r ≠ .null →
      Array.matchesB gName gRel n r it = attrEq (gRel it) r) ∧
    (n ≠ .null → r ≠ .null →
      Array.matchesB gName gRel n r it =
        (attrEq (gName it) n && attrEq (gRel it) r)) ∧
    (Array.find Link.attrName Link.attrRel (.str "a") .null
      [⟨.str "/1", .str "x", .str "a", .null, .null⟩,
       ⟨.str "/2", .str "y", .str "a", .null, .null⟩,
       ⟨.str "/3", .str "x", .str "b", .null, .null⟩] =
      [⟨.str "/1", .str "x", .str "a", .null, .null⟩,
       ⟨.str "/2", .str "y", .str "a", .null, .null⟩]) ∧
    (Array.find Link.attrName Link.attrRel .null (.str "x")
      [⟨.str "/1", .str "x", .str "a", .null, .null⟩,
       ⟨.str "/2", .str "y", .str "a", .null, .null⟩,
       ⟨.str "/3", .str "x", .str "b", .null, .null⟩] =
      [⟨.str "/1", .str "x", .str "a", .null, .null⟩,
       ⟨.str "/3", .str "x", .str "b", .null, .null⟩]) ∧
    (Array.find Link.attrName Link.attrRel (.str "a") (.str "y")
      [⟨.str "/1", .str "x", .str "a", .null, .null⟩,
       ⟨.str "/2", .str "y", .str "a", .null, .null⟩,
       ⟨.str "/3", .str "x", .str "b", .null, .null⟩] =
      [⟨.str "/2", .str "y", .str "a", .null, .null⟩]) := by
  refine ⟨?_, ?_, ?_, rfl, rfl, rfl⟩
  · intro hn hr
    subst hr
    have hn2 : n.isNull = false := by cases n <;> simp_all [Json.isNull]
    cases h : attrEq (gName it) n <;> simp [Array.matchesB, Json.isNull, hn2, h]
  · intro hn hr
    subst hn
    have hr2 : r.isNull = false := by cases r <;> simp_all [Json.isNull]
    cases h : attrEq (gRel it) r <;> simp [Array.matchesB, Json.isNull, hr2, h]
  · intro hn hr
    have hn2 : n.isNull = false := by cases n <;> simp_all [Json.isNull]
    have hr2 : r.isNull = false := by cases r <;> simp_all [Json.isNull]
    simp [Array.matchesB, hn2, hr2]

/-- Witness for C5: the name-only rule applied to the first link of the
example array. -/
theorem c5_matching_rules_witness :
    Array.matchesB Link.attrName Link.attrRel (.str "a") .null
      (⟨.str "/1", .str "x", .str "a", .null, .null⟩ : Link) =
      attrEq (Link.attrName ⟨.str "/1", .str "x", .str "a", .null, .null⟩) (.str "a") :=
  (c5_matching_rules Link.attrName Link.attrRel (.str "a") .null
    ⟨.str "/1", .str "x", .str "a", .null, .null⟩).1
    (fun h => Json.noConfusion h) rfl

/-- Claim C9: `Data.to_dict` contains `name` always, and contains
`value` (resp. `prompt`) exactly when the field is not `None` — in
particular the present-but-falsy empty string for `value` is still
emitted. -/
theorem c9_data_to_dict_optional_fields (d : Data) :
    (lookupJ (Data.to_dict d) "name" = some d.name) ∧
    (lookupJ (Data.to_dict d) "value" =
      if d.value.isNull then none else some d.value) ∧
    (lookupJ (Data.to_dict d) "prompt" =
      if d.prompt.isNull then none else some d.prompt) ∧
    (lookupJ (Data.to_dict ⟨d.name, .str "", d.prompt⟩) "value" = some (.str "")) := by
  rcases d with ⟨n, v, p⟩
  cases hv : v.isNull <;> cases hp : p.isNull <;>
    simp_all [Data.to_dict, lookupJ, Json.isNull_true_iff, Json.isNull]

/-- Claim C10: `Error.to_dict` always emits the single top-level key
`error` (the empty dict `\x7b\x7d` when all three fields are dropped),
each of `code`/`message`/`title` appears inside exactly when truthy, and
a present-but-empty-string field is serialized exactly as if it were
`None`. -/
theorem c10_error_to_dict (e : Error) :
    (lookupJ (Error.to_dict e) "error" = some (.obj (
      (if e.code.truthy then [("code", e.code)] else []) ++
      (if e.message.truthy then [("message", e.message)] else []) ++
      (if e.title.truthy then [("title", e.title)] else [])))) ∧
    (Error.to_dict ⟨.null, .null, .null⟩ = [("error", .obj [])]) ∧
    (Error.to_dict ⟨.str "", e.message, e.title⟩ =
      Error.to_dict ⟨.null, e.message, e.title⟩) ∧
    (Error.to_dict ⟨e.code, .str "", e.title⟩ =
      Error.to_dict ⟨e.code, .null, e.title⟩) ∧
    (Error.to_dict ⟨e.code, e.message, .str ""⟩ =
      Error.to_dict ⟨e.code, e.message, .null⟩) := by
  refine ⟨rfl, rfl, ?_, ?_, ?_⟩ <;> simp [Error.to_dict, Json.truthy, String.isEmpty]

/-- Claim C6: attribute-style lookup of an unknown name `X` on an array
collapses `find(name=X)`: no match raises `AttributeError`, exactly one
match returns the single element, several matches return the full
ordered list; `Item.__getattr__` and `Template.__getattr__` forward the
lookup to the `data` array. -/
theorem c6_getattr_delegation (gName gRel : α → Option Json) (xs : List α) (x : String) :
    (Array.find gName gRel (.str x) .null xs = [] →
      Array.getattr gName gRel xs x = .error (.attributeError "")) ∧
    (∀ y, Array.find gName gRel (.str x) .null xs = [y] →
      Array.getattr gName gRel xs x = .ok (.one y)) ∧
    (∀ y z rest, Array.find gName gRel (.str x) .null xs = y :: z :: rest →
      Array.getattr gName gRel xs x = .ok (.many (y :: z :: rest))) ∧
    (∀ i : Item, Item.getattr i x = Array.getattr Data.attrName Data.attrRel i.data x) ∧
    (∀ t : Template, Template.getattr t x = Array.getattr Data.attrName Data.attrRel t.data x) := by
  refine ⟨?_, ?_, ?_, fun _ => rfl, fun _ => rfl⟩
  · intro h; simp [Array.getattr, h]
  · intro y h; simp [Array.getattr, h]
  · intro y z rest h; simp [Array.getattr, h]

/-- Witness for C6: on an `Item` whose data array holds two fields both
named `full_name`, looking up attribute `full_name` returns the full
list; on the empty array the lookup fails with `AttributeError`. -/
theorem c6_getattr_delegation_witness :
    Array.getattr Data.attrName Data.attrRel
      [(⟨.str "full_name", .str "a", .null⟩ : Data),
       ⟨.str "full_name", .str "b", .null⟩] "full_name" =
      .ok (.many [⟨.str "full_name", .str "a", .null⟩,
        ⟨.str "full_name", .str "b", .null⟩]) ∧
    Array.getattr Data.attrName Data.attrRel ([] : List Data) "missing" =
      .error (.attributeError "") :=
  ⟨(c6_getattr_delegation Data.attrName Data.attrRel
      [⟨.str "full_name", .str "a", .null⟩, ⟨.str "full_name", .str "b", .null⟩]
      "full_name").2.2.1 _ _ _ rfl,
   (c6_getattr_delegation Data.attrName Data.attrRel [] "missing").1 rfl⟩

/-- Claim C8: `get` returns the first element (in array order) matching
the criteria; when no element matches it fails with
`ValueError("No matching item found.")`, which is a different exception
from the `AttributeError` of attribute-style lookup. -/
theorem c8_get_first_match (gName gRel : α → Option Json) (n r : Json) (xs : List α) :
    (Array.find gName gRel n r xs = [] →
      Array.get gName gRel n r xs = .error (.valueError notFoundMsg)) ∧
    (∀ y rest, Array.find gName gRel n r xs = y :: rest →
      Array.get gName gRel n r xs = .ok y) ∧
    (∀ m, (PyErr.valueError notFoundMsg) ≠ .attributeError m) := by
  refine ⟨?_, ?_, fun m h => PyErr.noConfusion h⟩
  · intro h; simp [Array.get, h]
  · intro y rest h; simp [Array.get, h]

/-- Witness for C8: `get(name="c")` on the two-element data array with
names `a` and `b` fails with NotFound; `get(name="a")` returns the
first element. -/
theorem c8_get_first_match_witness :
    Array.get Data.attrName Data.attrRel (.str "c") .null
      [(⟨.str "a", .null, .null⟩ : Data), ⟨.str "b", .null, .null⟩] =
      .error (.valueError notFoundMsg) ∧
    Array.get Data.attrName Data.attrRel (.str "a") .null
      [(⟨.str "a", .null, .null⟩ : Data), ⟨.str "b", .null, .null⟩] =
      .ok ⟨.str "a", .null, .null⟩ :=
  ⟨(c8_get_first_match Data.attrName Data.attrRel (.str "c") .null
      [⟨.str "a", .null, .null⟩, ⟨.str "b", .null, .null⟩]).1 rfl,
   (c8_get_first_match Data.attrName Data.attrRel (.str "a") .null
      [⟨.str "a", .null, .null⟩, ⟨.str "b", .null, .null⟩]).2.1 _ _ rfl⟩

/-- Claim C4, counterexample: a bare integer inside Collection`s items
does make construction fail with a message naming the value and the
class `Item`, but the exception raised by `Array._build_items` is
Python`s `ValueError`, not a `TypeError` (the module reserves
`TypeError` for `_from_dict_or_value`, used by the `error`/`template`
setters). -/
theorem c4_counterexample :
    collectionFromKwargs [("href", .null), ("items", .arr [.num 5])] =
      .error (.valueError "Invalid value for Item: 5") ∧
    PyErr.isTypeErr (.valueError "Invalid value for Item: 5") = false :=
  ⟨rfl, rfl⟩

/-- Claim C4, amended: an element that is neither an instance of the
array`s item class nor a dict makes `_build_items` fail — with a
`ValueError` (not a `TypeError`) whose message names the expected class
and the repr of the first such offending element. -/
theorem c4_build_items_invalid_element
    (build : List (String × Json) → Except PyErr α) (cls : String)
    (pre : List (α ⊕ Json)) (j : Json) (post : List (α ⊕ Json))
    (hj : j.isObj = false)
    (hpre : ∀ x ∈ pre, ∃ a, buildOne build cls x = .ok a) :
    buildItems build cls (pre ++ .inr j :: post) =
      .error (.valueError ("Invalid value for " ++ cls ++ ": " ++ pyRepr j)) ∧
    PyErr.isTypeErr
      (.valueError ("Invalid value for " ++ cls ++ ": " ++ pyRepr j)) = false := by
  refine ⟨?_, rfl⟩
  induction pre with
  | nil =>
      have hone : buildOne build cls (.inr j) =
          .error (.valueError ("Invalid value for " ++ cls ++ ": " ++ pyRepr j)) := by
        cases j <;> simp_all [buildOne, Json.isObj]
      simp [buildItems, hone, except_bind_err]
  | cons x xs ih =>
      obtain ⟨a, ha⟩ := hpre x (by simp)
      have ih2 := ih (fun y hy => hpre y (by simp [hy]))
      simp [buildItems, ha, except_bind_ok, ih2, except_bind_err]

/-- Witness for C4: the singleton raw element `5` built as an `Item`
array. -/
theorem c4_build_items_invalid_element_witness :
    buildItems itemFromKwargs "Item" [Sum.inr (.num 5)] =
      .error (.valueError ("Invalid value for " ++ "Item" ++ ": " ++ pyRepr (.num 5))) ∧
    PyErr.isTypeErr
      (.valueError ("Invalid value for " ++ "Item" ++ ": " ++ pyRepr (.num 5))) = false :=
  c4_build_items_invalid_element itemFromKwargs "Item" [] (.num 5) [] rfl
    (fun x hx => absurd hx (List.not_mem_nil x))

/-- Key/value pairs the `links` array contributes to the serialized
collection: nothing when empty, its `Array.to_dict` otherwise. -/
def linksPart (c : Collection) : List (String × Json) :=
  if c.links.isEmpty then [] else Array.to_dict "links" Link.to_dict c.links

/-- Key/value pairs the `items` array contributes to the serialized
collection. -/
def itemsPart (c : Collection) : List (String × Json) :=
  if c.items.isEmpty then [] else Array.to_dict "items" Item.to_dict c.items

/-- Key/value pairs the `queries` array contributes to the serialized
collection. -/
def queriesPart (c : Collection) : List (String × Json) :=
  if c.queries.isEmpty then [] else Array.to_dict "queries" Query.to_dict c.queries

/-- Key/value pairs the `template` field contributes to the serialized
collection: nothing when `None`, its `to_dict` otherwise (a present
`Template` instance is always truthy, even with an empty data array). -/
def templatePart (c : Collection) : List (String × Json) :=
  match c.template with
  | none => []
  | some t => Template.to_dict t

/-- Key/value pairs the `error` field contributes to the serialized
collection: nothing when `None`, its `to_dict` otherwise (a present
`Error` instance is always truthy, even with all fields `None`). -/
def errorPart (c : Collection) : List (String × Json) :=
  match c.error with
  | none => []
  | some e => Error.to_dict e

/-- The inner dict of a serialized collection: the `version`/`href`
envelope followed by the five contributions in the fixed merge order of
`Collection.to_dict`. -/
def collectionInner (c : Collection) : List (String × Json) :=
  [("version", c.version), ("href", c.href)] ++ linksPart c ++ itemsPart c ++
  queriesPart c ++ templatePart c ++ errorPart c

/-- The key sets merged by `Collection.to_dict` are pairwise disjoint,
so every `dict.update` is a plain append and the result is
`collectionInner`. -/
theorem to_dict_eq_inner (c : Collection) :
    Collection.to_dict c = [("collection", .obj (collectionInner c))] := by
  rcases c with ⟨v, h, ls, its, qs, t, e⟩
  unfold Collection.to_dict collectionInner linksPart itemsPart queriesPart
    templatePart errorPart
  cases ls <;> cases its <;> cases qs <;> cases t <;> cases e <;>
    simp [dictUpdate, lookupJ, Array.to_dict, Template.to_dict, Error.to_dict]

/-- Claim C2, counterexample: a collection whose `template` is present
but empty (`Template(data=[])`) and whose `error` is present but empty
(`Error()`) still serializes with the keys `template` and `error` —
Python object truthiness never makes `if self.template:` or
`if self.error:` false for a present instance — contradicting the claim
that an empty template or error contributes no key. -/
theorem c2_counterexample :
    Collection.to_dict
      ⟨.str "1.0", .str "/h", [], [], [], some ⟨[]⟩, some ⟨.null, .null, .null⟩⟩ =
      [("collection", .obj
        [("version", .str "1.0"), ("href", .str "/h"),
         ("template", .obj [("data", .arr [])]),
         ("error", .obj [])])] ∧
    lookupJ
      [("version", .str "1.0"), ("href", .str "/h"),
       ("template", .obj [("data", .arr [])]),
       ("error", .obj [])] "template" = some (.obj [("data", .arr [])]) ∧
    lookupJ
      [("version", .str "1.0"), ("href", .str "/h"),
       ("template", .obj [("data", .arr [])]),
       ("error", .obj [])] "error" = some (.obj []) :=
  ⟨rfl, rfl, rfl⟩

/-- Claim C2, amended: `to_dict` builds the `version`/`href` envelope
and merges the serialized `links`, `items`, `queries`, `template`,
`error` in that fixed order; each of the three arrays contributes its
key exactly when nonempty, while `template` and `error` contribute their
key exactly when present (not `None`) — a present-but-empty template or
error still contributes. -/
theorem c2_to_dict_structure (c : Collection) :
    (Collection.to_dict c = [("collection", .obj (
      [("version", c.version), ("href", c.href)] ++ linksPart c ++ itemsPart c ++
      queriesPart c ++ templatePart c ++ errorPart c))]) ∧
    (linksPart c = [] ↔ c.links = []) ∧
    (itemsPart c = [] ↔ c.items = []) ∧
    (queriesPart c = [] ↔ c.queries = []) ∧
    (templatePart c = [] ↔ c.template = none) ∧
    (errorPart c = [] ↔ c.error = none) := by
  refine ⟨to_dict_eq_inner c, ?_, ?_, ?_, ?_, ?_⟩
  · cases h : c.links <;> simp [linksPart, Array.to_dict, h]
  · cases h : c.items <;> simp [itemsPart, Array.to_dict, h]
  · cases h : c.queries <;> simp [queriesPart, Array.to_dict, h]
  · cases h : c.template <;> simp [templatePart, Template.to_dict, h]
  · cases h : c.error <;> simp [errorPart, Error.to_dict, h]

/-- Map over a successful `Except` computation. -/
theorem except_map_ok (f : α → β) (a : α) :
    (Except.ok a : Except ε α).map f = .ok (f a) := rfl

/-- Re-parsing the serialized form of a `Data` entity restores it
exactly. -/
theorem data_rt (d : Data) : dataFromKwargs (Data.to_dict d) = .ok d := by
  rcases d with ⟨n, v, p⟩
  cases hv : v.isNull <;> cases hp : p.isNull <;>
    simp_all [Data.to_dict, dataFromKwargs, badKw, kwGetD, lookupJ,
      Json.isNull_true_iff, List.find?]

/-- Re-parsing the serialized form of a `Link` entity restores it
exactly. -/
theorem link_rt (l : Link) : linkFromKwargs (Link.to_dict l) = .ok l := by
  rcases l with ⟨h, r, n, rd, p⟩
  cases hn : n.isNull <;> cases hrd : rd.isNull <;> cases hp : p.isNull <;>
    simp_all [Link.to_dict, linkFromKwargs, badKw, kwGetD, lookupJ,
      Json.isNull_true_iff, List.find?]

/-- Building an array back from serialized elements restores the
element list, given that each element round-trips. -/
theorem buildItems_rt (build : List (String × Json) → Except PyErr α)
    (cls : String) (f : α → List (String × Json)) (xs : List α)
    (h : ∀ x ∈ xs, build (f x) = .ok x) :
    buildItems build cls (xs.map (fun x => Sum.inr (.obj (f x)))) = .ok xs := by
  induction xs with
  | nil => rfl
  | cons x rest ih =>
      have hx := h x (by simp)
      have ih2 := ih (fun y hy => h y (by simp [hy]))
      simp [buildItems, buildOne, hx, ih2, except_bind_ok]

/-- Re-parsing a serialized JSON array of entities restores the element
list, given that each element round-trips. -/
theorem fromIter_arr_rt (build : List (String × Json) → Except PyErr α)
    (cls : String) (f : α → List (String × Json)) (xs : List α)
    (h : ∀ x ∈ xs, build (f x) = .ok x) :
    fromIterableToArray build cls (.arr (xs.map (fun x => .obj (f x)))) = .ok xs := by
  simp [fromIterableToArray, jsonIter, except_bind_ok, List.map_map]
  exact buildItems_rt build cls f xs h

/-- Re-parsing the serialized inner dict of an `Error` entity restores
it exactly, provided every present field is truthy (a present-but-falsy
field is dropped by `to_dict`). -/
theorem error_rt (e : Error)
    (hc : e.code.isNull = true ∨ e.code.truthy = true)
    (hm : e.message.isNull = true ∨ e.message.truthy = true)
    (ht : e.title.isNull = true ∨ e.title.truthy = true) :
    errorFromKwargs
      ((if e.code.truthy then [("code", e.code)] else []) ++
       (if e.message.truthy then [("message", e.message)] else []) ++
       (if e.title.truthy then [("title", e.title)] else [])) = .ok e := by
  rcases e with ⟨c, m, t⟩
  simp only at hc hm ht
  cases hct : c.truthy <;> cases hmt : m.truthy <;> cases htt : t.truthy <;>
    simp_all [errorFromKwargs, badKw, kwGetD, lookupJ, List.find?, Json.isNull_true_iff]

/-- Re-parsing the serialized inner dict of a `Template` entity restores
it exactly. -/
theorem template_rt (t : Template) :
    templateFromKwargs
      [("data", .arr (t.data.map (fun d => .obj (Data.to_dict d))))] = .ok t := by
  rcases t with ⟨ds⟩
  have h := fromIter_arr_rt dataFromKwargs "Data" Data.to_dict ds (fun d _ => data_rt d)
  simp [templateFromKwargs, badKw, kwGetD, lookupJ, List.find?, h, except_bind_ok]

/-- Re-parsing the serialized form of a `Query` entity restores it
exactly. -/
theorem query_rt (q : Query) : queryFromKwargs (Query.to_dict q) = .ok q := by
  rcases q with ⟨h, r, n, p, ds⟩
  have hds := fromIter_arr_rt dataFromKwargs "Data" Data.to_dict ds (fun d _ => data_rt d)
  cases hn : n.isNull <;> cases hp : p.isNull <;> cases hd : ds.isEmpty <;>
    simp_all [Query.to_dict, queryFromKwargs, badKw, kwGetD, lookupJ, List.find?,
      Json.isNull_true_iff, List.isEmpty_iff, Array.to_dict, dictUpdate,
      except_bind_ok, fromIterableToArray]

/-- Re-parsing the serialized form of an `Item` entity restores it
exactly, provided its `href` is either absent or truthy (`to_dict`
drops a present-but-falsy `href`). -/
theorem item_rt (i : Item) (hh : i.href.isNull = true ∨ i.href.truthy = true) :
    itemFromKwargs (Item.to_dict i) = .ok i := by
  rcases i with ⟨h, ds, ls⟩
  simp only at hh
  have hds := fromIter_arr_rt dataFromKwargs "Data" Data.to_dict ds (fun d _ => data_rt d)
  have hls := fromIter_arr_rt linkFromKwargs "Link" Link.to_dict ls (fun l _ => link_rt l)
  cases hht : h.truthy <;> cases hd : ds.isEmpty <;> cases hl : ls.isEmpty <;>
    simp_all [Item.to_dict, itemFromKwargs, badKw, kwGetD, lookupJ, List.find?,
      Json.isNull_true_iff, List.isEmpty_iff, Array.to_dict, dictUpdate,
      except_bind_ok, fromIterableToArray]

/-- Side condition under which serialization drops no information: every
item `href` is absent or truthy, and every present error field is absent
or truthy (these are exactly the places where `to_dict` tests Python
truthiness of a value that is reconstructed as `None` when missing). -/
def roundTripSafe (c : Collection) : Bool :=
  c.items.all (fun i => i.href.isNull || i.href.truthy) &&
  (match c.error with
   | none => true
   | some e => (e.code.isNull || e.code.truthy) &&
       ((e.message.isNull || e.message.truthy) &&
        (e.title.isNull || e.title.truthy)))

/-- Serializing any round-trip-safe collection and parsing the result
restores the collection exactly. -/
theorem collection_rt (c : Collection) (hs : roundTripSafe c = true) :
    Collection.from_json (some (.obj (Collection.to_dict c))) = .ok c := by
  rcases c with ⟨v, h, ls, its, qs, t, e⟩
  rw [to_dict_eq_inner]
  simp only [roundTripSafe, Bool.and_eq_true, List.all_eq_true, Bool.or_eq_true] at hs
  obtain ⟨hsi, hse⟩ := hs
  have hls := fromIter_arr_rt linkFromKwargs "Link" Link.to_dict ls (fun l _ => link_rt l)
  have hqs := fromIter_arr_rt queryFromKwargs "Query" Query.to_dict qs (fun q _ => query_rt q)
  have hits := fromIter_arr_rt itemFromKwargs "Item" Item.to_dict its
    (fun i hi => item_rt i (by simpa using hsi i hi))
  cases e with
  | none =>
      cases t <;> cases ls <;> cases its <;> cases qs <;>
        simp_all [Collection.from_json, collectionInner, linksPart, itemsPart,
          queriesPart, templatePart, errorPart, collectionFromKwargs, badKw,
          kwGetD, lookupJ, List.find?, Json.truthy, Array.to_dict,
          Template.to_dict, Error.to_dict, fromDictOrValue, fromIterableToArray,
          template_rt, except_bind_ok, except_map_ok]
  | some er =>
      simp only [Bool.and_eq_true, Bool.or_eq_true] at hse
      obtain ⟨h1, h2, h3⟩ := hse
      have herr := error_rt er h1 h2 h3
      cases t <;> cases ls <;> cases its <;> cases qs <;>
        simp_all [Collection.from_json, collectionInner, linksPart, itemsPart,
          queriesPart, templatePart, errorPart, collectionFromKwargs, badKw,
          kwGetD, lookupJ, List.find?, Json.truthy, Array.to_dict,
          Template.to_dict, Error.to_dict, fromDictOrValue, fromIterableToArray,
          template_rt, except_bind_ok, except_map_ok]

/-- Claim C1, counterexample: the document
`\x7b"collection": \x7b"href": "/h", "error": \x7b"code": ""\x7d\x7d\x7d`
parses successfully, but `Error.to_dict` drops the present-but-falsy
`code` field, so re-parsing the serialized form yields a collection
whose error has `code = None` — not structurally equal to the original
(neither in Lean equality nor under Python `==`). -/
theorem c1_counterexample :
    Collection.from_json (some (.obj [("collection", .obj [("href", .str "/h"),
      ("error", .obj [("code", .str "")])])])) =
      .ok ⟨.str "1.0", .str "/h", [], [], [], none, some ⟨.str "", .null, .null⟩⟩ ∧
    Collection.from_json (some (.obj (Collection.to_dict
      ⟨.str "1.0", .str "/h", [], [], [], none, some ⟨.str "", .null, .null⟩⟩))) =
      .ok ⟨.str "1.0", .str "/h", [], [], [], none, some ⟨.null, .null, .null⟩⟩ ∧
    Collection.pyEqv
      ⟨.str "1.0", .str "/h", [], [], [], none, some ⟨.str "", .null, .null⟩⟩
      ⟨.str "1.0", .str "/h", [], [], [], none, some ⟨.null, .null, .null⟩⟩ = false ∧
    (⟨.str "1.0", .str "/h", [], [], [], none, some ⟨.str "", .null, .null⟩⟩ : Collection) ≠
      ⟨.str "1.0", .str "/h", [], [], [], none, some ⟨.null, .null, .null⟩⟩ :=
  ⟨rfl, rfl, rfl, by simp [Collection.mk.injEq, Error.mk.injEq]⟩

/-- Claim C1, amended: for every JSON document that parses successfully
into a model `M`, serializing `M` and re-parsing restores `M` exactly,
provided `M` is round-trip safe: every item `href` and every present
error field is absent or truthy (serialization silently drops those
fields when they are present but falsy, e.g. the empty string). -/
theorem c1_roundtrip (D : Json) (M : Collection)
    (_hparse : Collection.from_json (some D) = .ok M)
    (hsafe : roundTripSafe M = true) :
    Collection.from_json (some (.obj (Collection.to_dict M))) = .ok M :=
  collection_rt M hsafe

/-- Witness for C1: the minimal document with only an `href`. -/
theorem c1_roundtrip_witness :
    Collection.from_json (some (.obj [("collection", .obj [("href", .str "/h")])])) =
      .ok ⟨.str "1.0", .str "/h", [], [], [], none, none⟩ ∧
    roundTripSafe ⟨.str "1.0", .str "/h", [], [], [], none, none⟩ = true ∧
    Collection.from_json (some (.obj (Collection.to_dict
      ⟨.str "1.0", .str "/h", [], [], [], none, none⟩))) =
      .ok ⟨.str "1.0", .str "/h", [], [], [], none, none⟩ :=
  ⟨rfl, rfl,
   c1_roundtrip (.obj [("collection", .obj [("href", .str "/h")])])
     ⟨.str "1.0", .str "/h", [], [], [], none, none⟩ rfl rfl⟩

/-- Classification of every exception that keyword construction of the
entity tree can raise: a `TypeError`, or the `ValueError` of
`Array._build_items`, whose message starts with `Invalid value for ` —
never the fixed messages of the `from_json` parsers. -/
def ConstructionErr (e : PyErr) : Prop :=
  (∃ s, e = .typeError s) ∨ ∃ r, e = .valueError ("Invalid value for " ++ r)

/-- The `_build_items` message never coincides with the
`Collection.from_json` message (their first characters differ). -/
theorem invalid_ne_fmtC (r : String) : ("Invalid value for " ++ r) ≠ fmtMsgC := by
  intro h
  have h2 := congrArg String.data h
  rw [String.data_append] at h2
  have h3 := congrArg List.head? h2
  simp [fmtMsgC] at h3

/-- The `_build_items` message never coincides with the
`Template.from_json` message. -/
theorem invalid_ne_fmtT (r : String) : ("Invalid value for " ++ r) ≠ fmtMsgT := by
  intro h
  have h2 := congrArg String.data h
  rw [String.data_append] at h2
  have h3 := congrArg List.head? h2
  simp [fmtMsgT] at h3

/-- A construction exception is never the `Collection.from_json` format
error. -/
theorem construction_ne_fmtC (e : PyErr) (he : ConstructionErr e) :
    e ≠ .valueError fmtMsgC := by
  rcases he with ⟨s, rfl⟩ | ⟨r, rfl⟩
  · exact fun h => PyErr.noConfusion h
  · intro h
    exact invalid_ne_fmtC r (by injection h)

/-- A construction exception is never the `Template.from_json` format
error. -/
theorem construction_ne_fmtT (e : PyErr) (he : ConstructionErr e) :
    e ≠ .valueError fmtMsgT := by
  rcases he with ⟨s, rfl⟩ | ⟨r, rfl⟩
  · exact fun h => PyErr.noConfusion h
  · intro h
    exact invalid_ne_fmtT r (by injection h)

/-- The `_build_items` error shape is a construction exception. -/
theorem invalid_shape (cls s : String) :
    ConstructionErr (.valueError ("Invalid value for " ++ cls ++ ": " ++ s)) :=
  Or.inr ⟨cls ++ (": " ++ s), by simp [String.append_assoc]⟩

/-- Map over a failed `Except` computation. -/
theorem except_map_err (f : α → β) (e : ε) :
    (Except.error e : Except ε α).map f = .error e := rfl

/-- Exceptions of `Data` keyword construction are construction
exceptions. -/
theorem dataK_err (kvs : List (String × Json)) (e : PyErr)
    (h : dataFromKwargs kvs = .error e) : ConstructionErr e := by
  unfold dataFromKwargs at h
  rcases hb : badKw ["name", "value", "prompt"] kvs with _ | k <;> rw [hb] at h
  · rcases hn : lookupJ kvs "name" with _ | nm <;> rw [hn] at h <;> simp at h
    exact Or.inl ⟨_, h.symm⟩
  · simp at h
    exact Or.inl ⟨_, h.symm⟩

/-- Exceptions of `Link` keyword construction are construction
exceptions. -/
theorem linkK_err (kvs : List (String × Json)) (e : PyErr)
    (h : linkFromKwargs kvs = .error e) : ConstructionErr e := by
  unfold linkFromKwargs at h
  rcases hb : badKw ["href", "rel", "name", "render", "prompt"] kvs with _ | k <;> rw [hb] at h
  · rcases hh : lookupJ kvs "href" with _ | hr <;>
      rcases hr2 : lookupJ kvs "rel" with _ | rl <;>
      rw [hh, hr2] at h <;> simp at h <;> exact Or.inl ⟨_, h.symm⟩
  · simp at h
    exact Or.inl ⟨_, h.symm⟩

/-- Exceptions of `Error` keyword construction are construction
exceptions. -/
theorem errorK_err (kvs : List (String × Json)) (e : PyErr)
    (h : errorFromKwargs kvs = .error e) : ConstructionErr e := by
  unfold errorFromKwargs at h
  rcases hb : badKw ["code", "message", "title"] kvs with _ | k <;> rw [hb] at h <;> simp at h
  exact Or.inl ⟨_, h.symm⟩

/-- Exceptions of Python iteration are construction exceptions. -/
theorem jsonIter_err (v : Json) (e : PyErr)
    (h : jsonIter v = .error e) : ConstructionErr e := by
  cases v <;> simp [jsonIter] at h <;> exact Or.inl ⟨_, h.symm⟩

/-- Exceptions of a `_build_items` loop step are construction
exceptions, given that the element constructor only raises construction
exceptions. -/
theorem buildOne_err (build : List (String × Json) → Except PyErr α) (cls : String)
    (hb : ∀ kvs e, build kvs = .error e → ConstructionErr e)
    (x : α ⊕ Json) (e : PyErr) (h : buildOne build cls x = .error e) :
    ConstructionErr e := by
  rcases x with a | j
  · simp [buildOne] at h
  · cases j <;> simp [buildOne] at h
    case obj kvs => exact hb kvs e h
    all_goals
      rw [← h]
      exact invalid_shape cls _

/-- Exceptions of `_build_items` are construction exceptions. -/
theorem buildItems_err (build : List (String × Json) → Except PyErr α) (cls : String)
    (hb : ∀ kvs e, build kvs = .error e → ConstructionErr e)
    (xs : List (α ⊕ Json)) (e : PyErr) (h : buildItems build cls xs = .error e) :
    ConstructionErr e := by
  induction xs with
  | nil => simp [buildItems] at h
  | cons x rest ih =>
      rw [buildItems] at h
      rcases h1 : buildOne build cls x with e1 | a <;> rw [h1] at h
      · rw [except_bind_err] at h
        injection h with h
        subst h
        exact buildOne_err build cls hb x _ h1
      · rw [except_bind_ok] at h
        rcases h2 : buildItems build cls rest with e2 | r2 <;> rw [h2] at h
        · rw [except_bind_err] at h
          injection h with h
          subst h
          exact ih h2
        · simp [except_bind_ok] at h

/-- Exceptions of `_from_iterable_to_array` are construction
exceptions. -/
theorem fromIter_err (build : List (String × Json) → Except PyErr α) (cls : String)
    (hb : ∀ kvs e, build kvs = .error e → ConstructionErr e)
    (v : Json) (e : PyErr) (h : fromIterableToArray build cls v = .error e) :
    ConstructionErr e := by
  have step : ∀ w : Json,
      (do
        let xs ← jsonIter w
        buildItems build cls (xs.map Sum.inr)) = .error e →
      ConstructionErr e := by
    intro w hw
    rcases h1 : jsonIter w with e1 | xs <;> rw [h1] at hw
    · rw [except_bind_err] at hw
      injection hw with hw
      subst hw
      exact jsonIter_err w _ h1
    · rw [except_bind_ok] at hw
      exact buildItems_err build cls hb _ e hw
  cases v with
  | null => simp [fromIterableToArray] at h
  | bool b => exact step _ h
  | num n => exact step _ h
  | str s => exact step _ h
  | arr l => exact step _ h
  | obj l => exact step _ h

/-- Exceptions of `Query` keyword construction are construction
exceptions. -/
theorem queryK_err (kvs : List (String × Json)) (e : PyErr)
    (h : queryFromKwargs kvs = .error e) : ConstructionErr e := by
  unfold queryFromKwargs at h
  rcases hb : badKw ["href", "rel", "name", "prompt", "data"] kvs with _ | k <;> rw [hb] at h
  · rcases hh : lookupJ kvs "href" with _ | hr <;>
      rcases hr2 : lookupJ kvs "rel" with _ | rl <;> rw [hh, hr2] at h
    · simp at h; exact Or.inl ⟨_, h.symm⟩
    · simp at h; exact Or.inl ⟨_, h.symm⟩
    · simp at h; exact Or.inl ⟨_, h.symm⟩
    · rcases hd : fromIterableToArray dataFromKwargs "Data" (kwGetD kvs "data")
        with e1 | ds <;> rw [hd] at h <;>
        simp only [except_bind_err, except_bind_ok, Except.error.injEq] at h
      · subst h
        exact fromIter_err _ _ dataK_err _ _ hd
      · simp at h
  · simp at h; exact Or.inl ⟨_, h.symm⟩

/-- Exceptions of `Template` keyword construction are construction
exceptions. -/
theorem templateK_err (kvs : List (String × Json)) (e : PyErr)
    (h : templateFromKwargs kvs = .error e) : ConstructionErr e := by
  unfold templateFromKwargs at h
  rcases hb : badKw ["data"] kvs with _ | k <;> rw [hb] at h
  · rcases hd : fromIterableToArray dataFromKwargs "Data" (kwGetD kvs "data")
      with e1 | ds <;> rw [hd] at h <;>
      simp only [except_bind_err, except_bind_ok, Except.error.injEq] at h
    · subst h
      exact fromIter_err _ _ dataK_err _ _ hd
    · simp at h
  · simp at h; exact Or.inl ⟨_, h.symm⟩

/-- Exceptions of `Item` keyword construction are construction
exceptions. -/
theorem itemK_err (kvs : List (String × Json)) (e : PyErr)
    (h : itemFromKwargs kvs = .error e) : ConstructionErr e := by
  unfold itemFromKwargs at h
  rcases hb : badKw ["href", "data", "links"] kvs with _ | k <;> rw [hb] at h
  · rcases hd : fromIterableToArray dataFromKwargs "Data" (kwGetD kvs "data")
      with e1 | ds <;> rw [hd] at h <;>
      simp only [except_bind_err, except_bind_ok, Except.error.injEq] at h
    · subst h
      exact fromIter_err _ _ dataK_err _ _ hd
    · rcases hl : fromIterableToArray linkFromKwargs "Link" (kwGetD kvs "links")
        with e2 | ls <;> rw [hl] at h <;>
        simp only [except_bind_err, except_bind_ok, Except.error.injEq] at h
      · subst h
        exact fromIter_err _ _ linkK_err _ _ hl
      · simp at h
  · simp at h; exact Or.inl ⟨_, h.symm⟩

/-- Exceptions of `_from_dict_or_value` are construction exceptions. -/
theorem fromDictOrValue_err (build : List (String × Json) → Except PyErr α) (cls : String)
    (hb : ∀ kvs e, build kvs = .error e → ConstructionErr e)
    (v : Json) (e : PyErr) (h : fromDictOrValue build cls v = .error e) :
    ConstructionErr e := by
  cases v <;> simp only [fromDictOrValue] at h
  case null => simp at h
  case obj kvs =>
    rcases h1 : build kvs with e1 | a <;> rw [h1] at h <;>
      simp only [except_map_err, except_map_ok, Except.error.injEq] at h
    · subst h
      exact hb kvs _ h1
    · simp at h
  all_goals { injection h with h; exact Or.inl ⟨_, h.symm⟩ }

/-- Exceptions of `Collection` keyword construction are construction
exceptions. -/
theorem collectionK_err (kvs : List (String × Json)) (e : PyErr)
    (h : collectionFromKwargs kvs = .error e) : ConstructionErr e := by
  unfold collectionFromKwargs at h
  rcases hb : badKw ["href", "links", "items", "queries", "template", "error", "version"] kvs
    with _ | k <;> rw [hb] at h
  · rcases hh : lookupJ kvs "href" with _ | hr <;> rw [hh] at h
    · simp at h; exact Or.inl ⟨_, h.symm⟩
    · rcases h1 : fromDictOrValue errorFromKwargs "Error" (kwGetD kvs "error")
        with e1 | er <;> rw [h1] at h <;>
        simp only [except_bind_err, except_bind_ok, Except.error.injEq] at h
      · subst h
        exact fromDictOrValue_err _ _ errorK_err _ _ h1
      · rcases h2 : fromDictOrValue templateFromKwargs "Template" (kwGetD kvs "template")
          with e2 | tp <;> rw [h2] at h <;>
          simp only [except_bind_err, except_bind_ok, Except.error.injEq] at h
        · subst h
          exact fromDictOrValue_err _ _ templateK_err _ _ h2
        · rcases h3 : fromIterableToArray itemFromKwargs "Item" (kwGetD kvs "items")
            with e3 | its <;> rw [h3] at h <;>
            simp only [except_bind_err, except_bind_ok, Except.error.injEq] at h
          · subst h
            exact fromIter_err _ _ itemK_err _ _ h3
          · rcases h4 : fromIterableToArray linkFromKwargs "Link" (kwGetD kvs "links")
              with e4 | ls <;> rw [h4] at h <;>
              simp only [except_bind_err, except_bind_ok, Except.error.injEq] at h
            · subst h
              exact fromIter_err _ _ linkK_err _ _ h4
            · rcases h5 : fromIterableToArray queryFromKwargs "Query" (kwGetD kvs "queries")
                with e5 | qs <;> rw [h5] at h <;>
                simp only [except_bind_err, except_bind_ok, Except.error.injEq] at h
              · subst h
                exact fromIter_err _ _ queryK_err _ _ h5
              · simp at h
  · simp at h; exact Or.inl ⟨_, h.symm⟩

/-- Claim C7, counterexample: on the valid JSON text `[]` — whose top
level has no `collection` key, so the claim requires the fixed
`ValueError` — the code instead raises an uncaught `AttributeError`,
because `data.get("collection")` is called on a list. -/
theorem c7_counterexample :
    Collection.from_json (some (.arr [])) = .error (.attributeError noGetAttrMsg) ∧
    (PyErr.attributeError noGetAttrMsg) ≠ .valueError fmtMsgC :=
  ⟨rfl, fun h => PyErr.noConfusion h⟩

/-- Claim C7, amended: `Collection.from_json` fails with
`ValueError("Not a valid Collection+JSON document.")` exactly when the
text is not valid JSON or the top level is a JSON object whose
`collection` key is absent or falsy; when the top level is valid JSON
but not an object it fails with an `AttributeError` instead; a truthy
dict-valued `collection` is expanded into keyword construction.
`Template.from_json` mirrors this with the `template` key and
`ValueError("Not valid Collection+JSON template data.")`. -/
theorem c7_from_json_format_errors :
    (Collection.from_json none = .error (.valueError fmtMsgC)) ∧
    (∀ kvs, (kwGetD kvs "collection").truthy = false →
      Collection.from_json (some (.obj kvs)) = .error (.valueError fmtMsgC)) ∧
    (∀ j : Json, j.isObj = false →
      Collection.from_json (some j) = .error (.attributeError noGetAttrMsg)) ∧
    (∀ kvs, (kwGetD kvs "collection").truthy = true →
      Collection.from_json (some (.obj kvs)) ≠ .error (.valueError fmtMsgC)) ∧
    (∀ kvs kvs2, lookupJ kvs "collection" = some (.obj kvs2) →
      (Json.obj kvs2).truthy = true →
      Collection.from_json (some (.obj kvs)) = collectionFromKwargs kvs2) ∧
    (Template.from_json none = .error (.valueError fmtMsgT)) ∧
    (∀ kvs, (kwGetD kvs "template").truthy = false →
      Template.from_json (some (.obj kvs)) = .error (.valueError fmtMsgT)) ∧
    (∀ j : Json, j.isObj = false →
      Template.from_json (some j) = .error (.attributeError noGetAttrMsg)) ∧
    (∀ kvs, (kwGetD kvs "template").truthy = true →
      Template.from_json (some (.obj kvs)) ≠ .error (.valueError fmtMsgT)) := by
  refine ⟨rfl, ?_, ?_, ?_, ?_, rfl, ?_, ?_, ?_⟩
  · intro kvs h
    simp [Collection.from_json, h]
  · intro j hj
    cases j <;> simp_all [Collection.from_json, Json.isObj]
  · intro kvs ht hcontra
    rw [Collection.from_json] at hcontra
    rw [if_pos ht] at hcontra
    rcases hkw : kwGetD kvs "collection" with _ | b | n | s | l | kvs2 <;>
      rw [hkw] at hcontra ht <;> simp_all [Json.truthy]
    exact construction_ne_fmtC _ (collectionK_err kvs2 _ hcontra) rfl
  · intro kvs kvs2 hl ht
    simp [Collection.from_json, kwGetD, hl, ht]
  · intro kvs h
    simp [Template.from_json, h]
  · intro j hj
    cases j <;> simp_all [Template.from_json, Json.isObj]
  · intro kvs ht hcontra
    rw [Template.from_json] at hcontra
    rw [if_pos ht] at hcontra
    rcases hkw : kwGetD kvs "template" with _ | b | n | s | l | kvs2 <;>
      rw [hkw] at hcontra ht <;> simp_all [Json.truthy]
    exact construction_ne_fmtT _ (templateK_err kvs2 _ hcontra) rfl

/-- Witness for C7: the empty JSON object lacks a `collection` key, so
parsing it fails with the fixed message; the same for `template`. -/
theorem c7_from_json_format_errors_witness :
    Collection.from_json (some (.obj [])) = .error (.valueError fmtMsgC) ∧
    Template.from_json (some (.obj [])) = .error (.valueError fmtMsgT) ∧
    Collection.from_json (some (.num 5)) = .error (.attributeError noGetAttrMsg) :=
  ⟨c7_from_json_format_errors.2.1 [] rfl,
   c7_from_json_format_errors.2.2.2.2.2.2.1 [] rfl,
   c7_from_json_format_errors.2.2.1 (.num 5) rfl⟩

end CollectionJson
